import Mathlib

/-!
Shallow embedding of `custom_components/whirlpool/sensor.py`: the washer/dryer
state classifier (`washer_state`), the tank-level lookup (`TANK_FILL`), and the
cycle completion-time estimator (`WasherDryerTimeClass.update_from_latest_data`),
together with its construction (`__init__`) and restoration (`async_added_to_hass`).

Timestamps are modelled as integers (seconds); `datetime` arithmetic in the
source (`now + timedelta(seconds=remaining_seconds)`, comparison against
`timedelta(seconds=60)`) becomes integer arithmetic with the same structure.
A Python exception raised inside the notification callback is modelled by the
`raised` flag of `UpdateResult`; mutations performed before the raise persist,
exactly as the Python object's attributes do.
-/

namespace Whirlpool

/-- The machine-state enumeration of the external `whirlpool.washerdryer`
library.  The nineteen named constructors are exactly the keys of the source's
`MACHINE_STATE` table; `other code` stands for any library enumeration member
that is not a key of that table (the table lookup uses `dict.get`, which
returns `None` for such a value). -/
inductive MachineState where
  | Standby
  | Setting
  | DelayCountdownMode
  | DelayPause
  | SmartDelay
  | SmartGridPause
  | Pause
  | RunningMainCycle
  | RunningPostCycle
  | Exceptions
  | Complete
  | PowerFailure
  | ServiceDiagnostic
  | FactoryDiagnostic
  | LifeTest
  | CustomerFocusMode
  | DemoMode
  | HardStopOrError
  | SystemInit
  | other (code : Nat)
deriving DecidableEq

/-- The `TANK_FILL` dictionary of the source (sensor.py lines 38-45), as a
lookup on the raw dispense-level code. -/
def TANK_FILL (code : String) : Option String :=
  if code = "0" then some "unknown"
  else if code = "1" then some "empty"
  else if code = "2" then some "25"
  else if code = "3" then some "50"
  else if code = "4" then some "100"
  else if code = "5" then some "active"
  else none

/-- `TANK_FILL.get(k)` where `k` itself may be Python `None` (the attribute may
be absent): `dict.get` returns `None` both for a missing key and for key
`None`. -/
def TANK_FILL_get (code : Option String) : Option String :=
  code.bind TANK_FILL

/-- The `MACHINE_STATE` dictionary of the source (sensor.py lines 47-67);
`MACHINE_STATE.get` semantics, so an unmapped enumeration member yields
`none`. -/
def MACHINE_STATE : MachineState → Option String
  | .Standby => some "standby"
  | .Setting => some "setting"
  | .DelayCountdownMode => some "delay_countdown"
  | .DelayPause => some "delay_paused"
  | .SmartDelay => some "smart_delay"
  | .SmartGridPause => some "smart_grid_pause"
  | .Pause => some "pause"
  | .RunningMainCycle => some "running_maincycle"
  | .RunningPostCycle => some "running_postcycle"
  | .Exceptions => some "exception"
  | .Complete => some "complete"
  | .PowerFailure => some "power_failure"
  | .ServiceDiagnostic => some "service_diagnostic_mode"
  | .FactoryDiagnostic => some "factory_diagnostic_mode"
  | .LifeTest => some "life_test"
  | .CustomerFocusMode => some "customer_focus_mode"
  | .DemoMode => some "demo_mode"
  | .HardStopOrError => some "hard_stop_or_error"
  | .SystemInit => some "system_initialize"
  | .other _ => none

/-- A point-in-time snapshot of one washer/dryer, as read through the external
library: `get_attribute` (a key may be absent, giving Python `None`),
`get_machine_state`, and the six `get_cycle_status_*` predicates. -/
structure WasherDryer where
  attrs : String → Option String
  machineState : MachineState
  filling : Bool
  rinsing : Bool
  sensing : Bool
  soaking : Bool
  spinning : Bool
  washing : Bool

/-- `washer.get_attribute(key)`. -/
def get_attribute (w : WasherDryer) (key : String) : Option String :=
  w.attrs key

/-- `washer.get_machine_state()`. -/
def get_machine_state (w : WasherDryer) : MachineState :=
  w.machineState

/-- The `CYCLE_FUNC` list of sensor.py lines 78-85: the six cycle-phase
predicates paired with their labels, in the source's fixed order. -/
def CYCLE_FUNC (w : WasherDryer) : List (Bool × String) :=
  [(w.filling, "cycle_filling"),
   (w.rinsing, "cycle_rinsing"),
   (w.sensing, "cycle_sensing"),
   (w.soaking, "cycle_soaking"),
   (w.spinning, "cycle_spinning"),
   (w.washing, "cycle_washing")]

/-- The `for func, cycle_name in CYCLE_FUNC: if func(washer): return cycle_name`
loop: the label of the first pair whose predicate holds, if any. -/
def firstCycle : List (Bool × String) → Option String
  | [] => none
  | (b, label) :: rest => if b then some label else firstCycle rest

/-- `washer_state` of sensor.py lines 69-92: door-open override, then the
cycle-phase loop when the machine state is `RunningMainCycle`, then the
`MACHINE_STATE.get` fallback. -/
def washer_state (w : WasherDryer) : Option String :=
  if get_attribute w "Cavity_OpStatusDoorOpen" = some "1" then
    some "door_open"
  else if get_machine_state w = MachineState.RunningMainCycle then
    match firstCycle (CYCLE_FUNC w) with
    | some label => some label
    | none => MACHINE_STATE (get_machine_state w)
  else
    MACHINE_STATE (get_machine_state w)

/-- The `value_fn` of the `DispenseLevel` sensor description (sensor.py lines
119-121): `TANK_FILL.get(wd.get_attribute("WashCavity_OpStatusBulkDispense1Level"))`. -/
def tank_value (w : WasherDryer) : Option String :=
  TANK_FILL_get (get_attribute w "WashCavity_OpStatusBulkDispense1Level")

/-- Value of a decimal-digit string of characters, `none` if any character is
not a digit.  Accumulator-style, matching left-to-right reading. -/
def digitsVal : List Char → Nat → Option Nat
  | [], acc => some acc
  | c :: rest, acc =>
      if c.isDigit then digitsVal rest (acc * 10 + (c.toNat - 48)) else none

/-- Python `int(s)` on a string: optional surrounding spaces, optional sign,
then a nonempty run of decimal digits; anything else raises, modelled as
`none`. -/
def pyInt (s : String) : Option Int :=
  let cs := (((s.toList.dropWhile (fun c => c = ' ')).reverse.dropWhile
      (fun c => c = ' ')).reverse)
  match cs with
  | [] => none
  | '-' :: rest =>
      if rest = [] then none else (digitsVal rest 0).map (fun n => -(n : Int))
  | '+' :: rest =>
      if rest = [] then none else (digitsVal rest 0).map (fun n => (n : Int))
  | _ => (digitsVal cs 0).map (fun n => (n : Int))

/-- `int(washer.get_attribute(key))` where the attribute may be absent:
`int(None)` raises (TypeError), `int("garbage")` raises (ValueError); both are
modelled as `none`. -/
def intAttr (a : Option String) : Option Int :=
  a.bind pyInt

/-- The mutable per-instance state of `WasherDryerTimeClass`:
`_attr_native_value` (the last written completion timestamp, if any) and
`_running` (initialised to Python `None`, hence `Option Bool`). -/
structure EstState where
  native : Option Int
  running : Option Bool
deriving DecidableEq

/-- The state right after `__init__` (sensor.py lines 188-198):
`_attr_native_value` unset, `_running = None`. -/
def initState : EstState :=
  ⟨none, none⟩

/-- `async_added_to_hass` (sensor.py lines 205-210): if restored sensor data is
present, seed `_attr_native_value` with it; `_running` is untouched. -/
def restoreState (restored : Option Int) : EstState :=
  match restored with
  | some v => ⟨some v, initState.running⟩
  | none => initState

/-- Outcome of one `update_from_latest_data` call: the timestamps written to
the host layer (via `_async_write_ha_state`), the object state afterwards, and
whether a Python exception escaped the callback.  State mutations made before
a raise persist. -/
structure UpdateResult where
  emits : List Int
  state : EstState
  raised : Bool
deriving DecidableEq

/-- The first `if` of `update_from_latest_data` (sensor.py lines 231-238): on
`machine_state.value in {Complete.value, Standby.value}` with `self._running`
truthy, store `now`, clear `_running`, and write the state. -/
def finishStep (st : EstState) (machine_state : MachineState) (now : Int) :
    List Int × EstState :=
  if (machine_state = MachineState.Complete ∨ machine_state = MachineState.Standby)
      ∧ st.running = some true then
    ([now], ⟨some now, some false⟩)
  else
    ([], st)

/-- The second `if` of `update_from_latest_data` (sensor.py lines 240-251),
acting on the state left by the first: on `RunningMainCycle`, set
`_running = True`, then parse the remaining-seconds attribute — an unparseable
or absent value makes `int(...)` raise, after the `_running` mutation — and
otherwise write `now + remaining` when `_attr_native_value` is unset or differs
from the candidate by more than 60 seconds. -/
def runningStep (p : List Int × EstState) (machine_state : MachineState)
    (remainingAttr : Option String) (now : Int) : UpdateResult :=
  if machine_state = MachineState.RunningMainCycle then
    match intAttr remainingAttr with
    | none => ⟨p.1, ⟨p.2.native, some true⟩, true⟩
    | some rs =>
        match p.2.native with
        | none => ⟨p.1 ++ [now + rs], ⟨some (now + rs), some true⟩, false⟩
        | some t0 =>
            if 60 < |now + rs - t0| then
              ⟨p.1 ++ [now + rs], ⟨some (now + rs), some true⟩, false⟩
            else
              ⟨p.1, ⟨some t0, some true⟩, false⟩
  else
    ⟨p.1, p.2, false⟩

/-- `WasherDryerTimeClass.update_from_latest_data` (sensor.py lines 226-251):
the finish-transition `if` followed by the running-update `if` over the mutated
state. -/
def update_from_latest_data (st : EstState) (machine_state : MachineState)
    (remainingAttr : Option String) (now : Int) : UpdateResult :=
  runningStep (finishStep st machine_state now) machine_state remainingAttr now

/-- One change notification as seen by the callback: the machine state, the raw
remaining-seconds attribute, and the clock reading `utcnow()` at delivery. -/
structure Notif where
  machineState : MachineState
  remainingAttr : Option String
  now : Int

/-- The estimator state after one notification (the object survives even if the
callback raised, keeping the mutations made before the raise). -/
def stepState (st : EstState) (n : Notif) : EstState :=
  (update_from_latest_data st n.machineState n.remainingAttr n.now).state

/-- The estimator state after a sequence of notifications. -/
def runNotifs (st : EstState) : List Notif → EstState
  | [] => st
  | n :: rest => runNotifs (stepState st n) rest

/-- Concrete snapshot builder used by witnesses: only the door-open and
dispense-level attributes are set, every other key is absent. -/
def mkWasher (door tank : Option String) (ms : MachineState)
    (f r se so sp wa : Bool) : WasherDryer :=
  ⟨fun k =>
      if k = "Cavity_OpStatusDoorOpen" then door
      else if k = "WashCavity_OpStatusBulkDispense1Level" then tank
      else none,
   ms, f, r, se, so, sp, wa⟩

/- Helper lemmas shared by the claim theorems. -/

lemma finishStep_not_running (st : EstState) (ms : MachineState) (now : Int)
    (h : st.running ≠ some true) : finishStep st ms now = ([], st) := by
  unfold finishStep
  rw [if_neg]
  intro hc
  exact h hc.2

lemma finishStep_not_terminal (st : EstState) (ms : MachineState) (now : Int)
    (h1 : ms ≠ MachineState.Complete) (h2 : ms ≠ MachineState.Standby) :
    finishStep st ms now = ([], st) := by
  unfold finishStep
  rw [if_neg]
  intro hc
  rcases hc.1 with h | h
  · exact h1 h
  · exact h2 h

lemma runningStep_not_main (p : List Int × EstState) (ms : MachineState)
    (attr : Option String) (now : Int) (h : ms ≠ MachineState.RunningMainCycle) :
    runningStep p ms attr now = ⟨p.1, p.2, false⟩ := by
  unfold runningStep
  rw [if_neg h]

lemma running_update_parse_fail (st : EstState) (attr : Option String) (now : Int)
    (hparse : intAttr attr = none) :
    update_from_latest_data st MachineState.RunningMainCycle attr now
      = ⟨[], ⟨st.native, some true⟩, true⟩ := by
  unfold update_from_latest_data
  rw [finishStep_not_terminal st _ now (by decide) (by decide)]
  simp [runningStep, hparse]

lemma running_update_fresh (st : EstState) (attr : Option String) (rs now : Int)
    (hparse : intAttr attr = some rs) (hn : st.native = none) :
    update_from_latest_data st MachineState.RunningMainCycle attr now
      = ⟨[now + rs], ⟨some (now + rs), some true⟩, false⟩ := by
  unfold update_from_latest_data
  rw [finishStep_not_terminal st _ now (by decide) (by decide)]
  simp [runningStep, hparse, hn]

lemma running_update_far (st : EstState) (attr : Option String) (rs now t0 : Int)
    (hparse : intAttr attr = some rs) (hn : st.native = some t0)
    (hfar : 60 < |now + rs - t0|) :
    update_from_latest_data st MachineState.RunningMainCycle attr now
      = ⟨[now + rs], ⟨some (now + rs), some true⟩, false⟩ := by
  unfold update_from_latest_data
  rw [finishStep_not_terminal st _ now (by decide) (by decide)]
  simp [runningStep, hparse, hn, hfar]

lemma running_update_near (st : EstState) (attr : Option String) (rs now t0 : Int)
    (hparse : intAttr attr = some rs) (hn : st.native = some t0)
    (hnear : |now + rs - t0| ≤ 60) :
    update_from_latest_data st MachineState.RunningMainCycle attr now
      = ⟨[], ⟨some t0, some true⟩, false⟩ := by
  unfold update_from_latest_data
  rw [finishStep_not_terminal st _ now (by decide) (by decide)]
  simp [runningStep, hparse, hn, not_lt.mpr hnear]

lemma update_noop (st : EstState) (ms : MachineState) (attr : Option String)
    (now : Int) (h1 : ms ≠ MachineState.RunningMainCycle)
    (h2 : st.running ≠ some true) :
    update_from_latest_data st ms attr now = ⟨[], st, false⟩ := by
  unfold update_from_latest_data
  rw [finishStep_not_running st ms now h2, runningStep_not_main _ _ _ _ h1]

lemma runNotifs_no_main (st : EstState) (l : List Notif)
    (hst : st.running ≠ some true)
    (hl : ∀ n ∈ l, n.machineState ≠ MachineState.RunningMainCycle) :
    runNotifs st l = st := by
  induction l with
  | nil => rfl
  | cons n rest ih =>
      have h1 : n.machineState ≠ MachineState.RunningMainCycle := hl n (by simp)
      have hstep : stepState st n = st := by
        unfold stepState
        rw [update_noop st _ _ _ h1 hst]
      unfold runNotifs
      rw [hstep]
      exact ih (fun m hm => hl m (by simp [hm]))

/-- C1 counterexample: with MachineState `RunningMainCycle` and the
remaining-seconds attribute absent (Python `None`) or unparseable (`"abc"`),
`update_from_latest_data` raises — `int(...)` on line 242 is unguarded — so the
claim "raises no error" is false at these concrete inputs. -/
theorem remaining_attr_absent_raises :
    (update_from_latest_data initState MachineState.RunningMainCycle none 0).raised = true ∧
    (update_from_latest_data initState MachineState.RunningMainCycle (some "abc") 0).raised
      = true := by
  constructor
  · rfl
  · decide

/-- C1 (amended): with MachineState `RunningMainCycle` and the
remaining-seconds attribute absent or not parseable as an integer, the
estimator raises (TypeError/ValueError from `int(...)`), emits no timestamp
update, leaves `lastEmittedTimestamp` unchanged, but has already set the
`isRunning` flag to true before the raise. -/
theorem malformed_remaining_raises (st : EstState) (attr : Option String)
    (now : Int) (hparse : intAttr attr = none) :
    (update_from_latest_data st MachineState.RunningMainCycle attr now).raised = true ∧
    (update_from_latest_data st MachineState.RunningMainCycle attr now).emits = [] ∧
    (update_from_latest_data st MachineState.RunningMainCycle attr now).state.native
      = st.native ∧
    (update_from_latest_data st MachineState.RunningMainCycle attr now).state.running
      = some true := by
  rw [running_update_parse_fail st attr now hparse]
  exact ⟨rfl, rfl, rfl, rfl⟩

/-- C1 witness: the amended claim at a concrete input. -/
theorem malformed_remaining_raises_witness :
    (update_from_latest_data ⟨some 500, some false⟩ MachineState.RunningMainCycle
        (some "oops") 42).raised = true ∧
    (update_from_latest_data ⟨some 500, some false⟩ MachineState.RunningMainCycle
        (some "oops") 42).emits = [] ∧
    (update_from_latest_data ⟨some 500, some false⟩ MachineState.RunningMainCycle
        (some "oops") 42).state.native = some 500 ∧
    (update_from_latest_data ⟨some 500, some false⟩ MachineState.RunningMainCycle
        (some "oops") 42).state.running = some true :=
  malformed_remaining_raises ⟨some 500, some false⟩ (some "oops") 42 (by decide)

/-- C2: under MachineState `RunningMainCycle` with a well-formed
remaining-seconds value `rs`, the candidate `T1 = now + rs` is emitted and
stored exactly when the previous value is absent or differs from `T1` by more
than 60 seconds; otherwise nothing is emitted and the previous value is kept. -/
theorem hysteresis_law (st : EstState) (attr : Option String) (rs now : Int)
    (hparse : intAttr attr = some rs) :
    (st.native = none →
      (update_from_latest_data st MachineState.RunningMainCycle attr now).emits
        = [now + rs] ∧
      (update_from_latest_data st MachineState.RunningMainCycle attr now).state.native
        = some (now + rs)) ∧
    (∀ t0, st.native = some t0 → |now + rs - t0| ≤ 60 →
      (update_from_latest_data st MachineState.RunningMainCycle attr now).emits = [] ∧
      (update_from_latest_data st MachineState.RunningMainCycle attr now).state.native
        = some t0) ∧
    (∀ t0, st.native = some t0 → 60 < |now + rs - t0| →
      (update_from_latest_data st MachineState.RunningMainCycle attr now).emits
        = [now + rs] ∧
      (update_from_latest_data st MachineState.RunningMainCycle attr now).state.native
        = some (now + rs)) := by
  refine ⟨fun hn => ?_, fun t0 hn hnear => ?_, fun t0 hn hfar => ?_⟩
  · rw [running_update_fresh st attr rs now hparse hn]
    exact ⟨rfl, rfl⟩
  · rw [running_update_near st attr rs now t0 hparse hn hnear]
    exact ⟨rfl, rfl⟩
  · rw [running_update_far st attr rs now t0 hparse hn hfar]
    exact ⟨rfl, rfl⟩

/-- C2 witness: previous value 320, candidate 100 + 200 = 300, difference 20 ≤
60 seconds, so nothing is emitted and 320 is kept. -/
theorem hysteresis_law_witness :
    (update_from_latest_data ⟨some 320, none⟩ MachineState.RunningMainCycle
        (some "200") 100).emits = [] ∧
    (update_from_latest_data ⟨some 320, none⟩ MachineState.RunningMainCycle
        (some "200") 100).state.native = some 320 :=
  (hysteresis_law ⟨some 320, none⟩ (some "200") 200 100 (by decide)).2.1 320 rfl
    (by decide)

/-- C3: on MachineState `Complete` or `Standby` with the running flag true, the
estimator emits exactly `now`, clears the running flag, stores `now`; the next
notification with the same terminal state emits nothing. -/
theorem finish_transition_law (st : EstState) (ms : MachineState)
    (attr attr2 : Option String) (now now2 : Int)
    (hms : ms = MachineState.Complete ∨ ms = MachineState.Standby)
    (hrun : st.running = some true) :
    (update_from_latest_data st ms attr now).emits = [now] ∧
    (update_from_latest_data st ms attr now).state.running = some false ∧
    (update_from_latest_data st ms attr now).state.native = some now ∧
    (update_from_latest_data (update_from_latest_data st ms attr now).state
        ms attr2 now2).emits = [] := by
  have hne : ms ≠ MachineState.RunningMainCycle := by
    rcases hms with h | h <;> subst h <;> decide
  have hfin : finishStep st ms now = ([now], ⟨some now, some false⟩) := by
    unfold finishStep
    rw [if_pos ⟨hms, hrun⟩]
  have h2 : update_from_latest_data st ms attr now
      = ⟨[now], ⟨some now, some false⟩, false⟩ := by
    unfold update_from_latest_data
    rw [hfin, runningStep_not_main _ _ _ _ hne]
  have h3 : update_from_latest_data (⟨some now, some false⟩ : EstState) ms attr2 now2
      = ⟨[], ⟨some now, some false⟩, false⟩ :=
    update_noop _ _ _ _ hne (by simp)
  rw [h2]
  exact ⟨rfl, rfl, rfl, by rw [h3]⟩

/-- C3 witness: a finished cycle at time 1000 after running, then a repeated
`Complete` notification at 1100. -/
theorem finish_transition_law_witness :
    (update_from_latest_data ⟨some 500, some true⟩ MachineState.Complete none
        1000).emits = [1000] ∧
    (update_from_latest_data ⟨some 500, some true⟩ MachineState.Complete none
        1000).state.running = some false ∧
    (update_from_latest_data ⟨some 500, some true⟩ MachineState.Complete none
        1000).state.native = some 1000 ∧
    (update_from_latest_data
        (update_from_latest_data ⟨some 500, some true⟩ MachineState.Complete none
          1000).state MachineState.Complete none 1100).emits = [] :=
  finish_transition_law ⟨some 500, some true⟩ MachineState.Complete none none
    1000 1100 (Or.inl rfl) rfl

/-- C4: whenever the door-open attribute equals the sentinel `"1"`,
`washer_state` returns `door_open`, whatever the machine state and cycle flags. -/
theorem door_open_override (w : WasherDryer)
    (h : get_attribute w "Cavity_OpStatusDoorOpen" = some "1") :
    washer_state w = some "door_open" := by
  unfold washer_state
  rw [if_pos h]

/-- C4 witness: door open during a running main cycle with a cycle flag set. -/
theorem door_open_override_witness :
    washer_state (mkWasher (some "1") none MachineState.RunningMainCycle
      true false false false false false) = some "door_open" :=
  door_open_override _ rfl

/-- C5: with the door not open and MachineState `RunningMainCycle`,
`washer_state` is the first-true cascade over the six cycle flags in the fixed
order filling, rinsing, sensing, soaking, spinning, washing, falling through to
`running_maincycle` when none holds. -/
theorem cycle_priority (w : WasherDryer)
    (hdoor : get_attribute w "Cavity_OpStatusDoorOpen" ≠ some "1")
    (hms : get_machine_state w = MachineState.RunningMainCycle) :
    washer_state w =
      if w.filling then some "cycle_filling"
      else if w.rinsing then some "cycle_rinsing"
      else if w.sensing then some "cycle_sensing"
      else if w.soaking then some "cycle_soaking"
      else if w.spinning then some "cycle_spinning"
      else if w.washing then some "cycle_washing"
      else some "running_maincycle" := by
  obtain ⟨attrs, ms, f, r, se, so, sp, wa⟩ := w
  simp only [get_machine_state] at hms
  subst hms
  simp only [get_attribute] at hdoor
  cases f <;> cases r <;> cases se <;> cases so <;> cases sp <;> cases wa <;>
    simp [washer_state, get_attribute, get_machine_state, CYCLE_FUNC, firstCycle,
      MACHINE_STATE, hdoor]

/-- C5 witness: rinsing and sensing both set; rinsing has priority. -/
theorem cycle_priority_witness :
    washer_state (mkWasher none none MachineState.RunningMainCycle
      false true true false false false) = some "cycle_rinsing" :=
  cycle_priority _ (by decide) rfl

/-- C6: with the door not open and a machine-state value that the
`MACHINE_STATE` table does not map, `washer_state` returns `none` (unknown). -/
theorem unmapped_state_unknown (w : WasherDryer)
    (hdoor : get_attribute w "Cavity_OpStatusDoorOpen" ≠ some "1")
    (hunmapped : MACHINE_STATE (get_machine_state w) = none) :
    washer_state w = none := by
  have hne : get_machine_state w ≠ MachineState.RunningMainCycle := by
    intro h
    rw [h] at hunmapped
    simp [MACHINE_STATE] at hunmapped
  unfold washer_state
  rw [if_neg hdoor, if_neg hne]
  exact hunmapped

/-- C6 witness: an enumeration member outside the table. -/
theorem unmapped_state_unknown_witness :
    washer_state (mkWasher none none (MachineState.other 99)
      false false false false false false) = none :=
  unmapped_state_unknown _ (by decide) rfl

/-- C7: an estimator created with a persisted timestamp `t` holds `t` as its
current value with the running flag unset; its first live `RunningMainCycle`
notification overwrites `t` exactly under the 60-second hysteresis rule. -/
theorem restoration_seeds_value (t : Int) (attr : Option String) (rs now : Int)
    (hparse : intAttr attr = some rs) :
    (restoreState (some t)).native = some t ∧
    (restoreState (some t)).running = none ∧
    (60 < |now + rs - t| →
      (update_from_latest_data (restoreState (some t))
          MachineState.RunningMainCycle attr now).emits = [now + rs] ∧
      (update_from_latest_data (restoreState (some t))
          MachineState.RunningMainCycle attr now).state.native = some (now + rs)) ∧
    (|now + rs - t| ≤ 60 →
      (update_from_latest_data (restoreState (some t))
          MachineState.RunningMainCycle attr now).emits = [] ∧
      (update_from_latest_data (restoreState (some t))
          MachineState.RunningMainCycle attr now).state.native = some t) := by
  refine ⟨rfl, rfl, fun hfar => ?_, fun hnear => ?_⟩
  · rw [running_update_far _ attr rs now t hparse rfl hfar]
    exact ⟨rfl, rfl⟩
  · rw [running_update_near _ attr rs now t hparse rfl hnear]
    exact ⟨rfl, rfl⟩

/-- C7 witness: restored value 1000, first live notification at 50 with 120
seconds remaining; |170 − 1000| > 60 so the candidate overwrites. -/
theorem restoration_seeds_value_witness :
    (update_from_latest_data (restoreState (some 1000))
        MachineState.RunningMainCycle (some "120") 50).emits = [50 + 120] ∧
    (update_from_latest_data (restoreState (some 1000))
        MachineState.RunningMainCycle (some "120") 50).state.native
      = some (50 + 120) :=
  (restoration_seeds_value 1000 (some "120") 120 50 (by decide)).2.2.1 (by decide)

/-- C8: the tank sensor is the pure `TANK_FILL` lookup on the raw
dispense-level code — codes `"0"`..`"5"` map to their table values, an
unrecognized code such as `"9"` maps to `none` — and its result depends only on
that one attribute. -/
theorem tank_lookup :
    (∀ w : WasherDryer, tank_value w
        = TANK_FILL_get (get_attribute w "WashCavity_OpStatusBulkDispense1Level")) ∧
    TANK_FILL_get (some "0") = some "unknown" ∧
    TANK_FILL_get (some "1") = some "empty" ∧
    TANK_FILL_get (some "2") = some "25" ∧
    TANK_FILL_get (some "3") = some "50" ∧
    TANK_FILL_get (some "4") = some "100" ∧
    TANK_FILL_get (some "5") = some "active" ∧
    TANK_FILL_get (some "9") = none ∧
    (∀ w v : WasherDryer,
      get_attribute w "WashCavity_OpStatusBulkDispense1Level"
        = get_attribute v "WashCavity_OpStatusBulkDispense1Level" →
      tank_value w = tank_value v) := by
  refine ⟨fun w => rfl, by decide, by decide, by decide, by decide, by decide,
    by decide, by decide, fun w v h => ?_⟩
  unfold tank_value
  rw [h]

/-- C8 witness: two snapshots agreeing on the dispense-level attribute but with
different machine states give the same tank value. -/
theorem tank_lookup_witness :
    tank_value (mkWasher none (some "3") MachineState.Standby
        false false false false false false)
      = tank_value (mkWasher (some "1") (some "3") MachineState.RunningMainCycle
        true true true true true true) :=
  tank_lookup.2.2.2.2.2.2.2.2 _ _ rfl

/-- C9: the finish-transition emission ignores the 60-second hysteresis — on
`Complete` or `Standby` with the running flag true, `now` is emitted and stored
even when it is within 60 seconds of the stored value. -/
theorem finish_bypasses_hysteresis (st : EstState) (ms : MachineState)
    (attr : Option String) (t0 now : Int)
    (hms : ms = MachineState.Complete ∨ ms = MachineState.Standby)
    (hrun : st.running = some true) (hnative : st.native = some t0)
    (hclose : |now - t0| ≤ 60) :
    (update_from_latest_data st ms attr now).emits = [now] ∧
    (update_from_latest_data st ms attr now).state.native = some now := by
  have hne : ms ≠ MachineState.RunningMainCycle := by
    rcases hms with h | h <;> subst h <;> decide
  have hfin : finishStep st ms now = ([now], ⟨some now, some false⟩) := by
    unfold finishStep
    rw [if_pos ⟨hms, hrun⟩]
  have h2 : update_from_latest_data st ms attr now
      = ⟨[now], ⟨some now, some false⟩, false⟩ := by
    unfold update_from_latest_data
    rw [hfin, runningStep_not_main _ _ _ _ hne]
  rw [h2]
  exact ⟨rfl, rfl⟩

/-- C9 witness: stored value 980, finish at 1000, difference 20 ≤ 60, still
emitted. -/
theorem finish_bypasses_hysteresis_witness :
    (update_from_latest_data ⟨some 980, some true⟩ MachineState.Standby none
        1000).emits = [1000] ∧
    (update_from_latest_data ⟨some 980, some true⟩ MachineState.Standby none
        1000).state.native = some 1000 :=
  finish_bypasses_hysteresis ⟨some 980, some true⟩ MachineState.Standby none
    980 1000 (Or.inr rfl) rfl rfl (by decide)

/-- C10: after creation or restoration the running flag is not true, it stays
not true across any notification sequence that never observes
`RunningMainCycle`, and a `Complete` or `Standby` notification arriving in that
condition emits nothing — a finish-transition emission needs a prior
`RunningMainCycle` observation. -/
theorem no_finish_before_running (restored : Option Int) (l : List Notif)
    (hl : ∀ n ∈ l, n.machineState ≠ MachineState.RunningMainCycle)
    (ms : MachineState) (attr : Option String) (now : Int)
    (hms : ms = MachineState.Complete ∨ ms = MachineState.Standby) :
    (restoreState restored).running ≠ some true ∧
    (runNotifs (restoreState restored) l).running ≠ some true ∧
    (update_from_latest_data (runNotifs (restoreState restored) l) ms attr
        now).emits = [] := by
  have hr : (restoreState restored).running = none := by
    cases restored <;> rfl
  have h0 : (restoreState restored).running ≠ some true := by
    rw [hr]
    simp
  have hrun : runNotifs (restoreState restored) l = restoreState restored :=
    runNotifs_no_main _ _ h0 hl
  have hne : ms ≠ MachineState.RunningMainCycle := by
    rcases hms with h | h <;> subst h <;> decide
  refine ⟨h0, ?_, ?_⟩
  · rw [hrun]
    exact h0
  · rw [hrun, update_noop _ _ _ _ hne h0]

/-- C10 witness: restored estimator, one `Pause` notification, then a
`Complete` notification: nothing is emitted. -/
theorem no_finish_before_running_witness :
    (restoreState (some 100)).running ≠ some true ∧
    (runNotifs (restoreState (some 100))
        [⟨MachineState.Pause, none, 5⟩]).running ≠ some true ∧
    (update_from_latest_data
        (runNotifs (restoreState (some 100)) [⟨MachineState.Pause, none, 5⟩])
        MachineState.Complete none 7).emits = [] :=
  no_finish_before_running (some 100) [⟨MachineState.Pause, none, 5⟩]
    (by intro n hn; simp at hn; rw [hn]; decide)
    MachineState.Complete none 7 (Or.inl rfl)

end Whirlpool
